import Mathlib

/-!
Verification of the Iris core API headers: the reference-counted data-block
wrapper declared in IrisBuffer.hpp (class __INTERNAL__Buffer) and the
tile-pyramid addressing model built on the types of IrisTypes.hpp
(LayerExtent, Extent, Format).

The visible source ships declarations and documentation only: the method
bodies of __INTERNAL__Buffer and the tile-addressing helpers (Validate,
TileBounds, ExpectedByteSize) are not present.  Every definition whose body
is missing from the source is modelled from the specification text and its
doc comment says so.  Enumerations and the member layout of the buffer are
taken directly from the headers.
-/

namespace Iris

/-- Result flags returned by Iris API calls (IrisTypes.hpp, enum Result:
IRIS_SUCCESS = 0, IRIS_FAILURE = 1, IRIS_UNINITIALIZED = 2). -/
inductive Result where
  | IRIS_SUCCESS
  | IRIS_FAILURE
  | IRIS_UNINITIALIZED
deriving DecidableEq, Repr

export Result (IRIS_SUCCESS IRIS_FAILURE IRIS_UNINITIALIZED)

/-- Buffer ownership strength over the wrapped data block (IrisTypes.hpp,
enum BufferReferenceStrength: REFERENCE_WEAK = 0, REFERENCE_STRONG = 1). -/
inductive BufferReferenceStrength where
  | REFERENCE_WEAK
  | REFERENCE_STRONG
deriving DecidableEq, Repr

export BufferReferenceStrength (REFERENCE_WEAK REFERENCE_STRONG)

/-- State of an __INTERNAL__Buffer (IrisBuffer.hpp lines 34 to 39: members
_strength, _capacity, _size, _data).  The field `data` is the address of
the backing block, with 0 modelling nullptr.  The field `mem` models the
byte contents of the heap block that `data` points to, which in C++ lives
behind the pointer rather than inside the object; the well-formedness
predicate ties its length to `capacity`.  Bytes are modelled as Nat. -/
structure BufferState where
  strength : BufferReferenceStrength
  capacity : Nat
  size : Nat
  data : Nat
  mem : List Nat
deriving DecidableEq, Repr

/-- Well-formedness of a buffer state: the written size never exceeds the
capacity, and the backing block holds exactly `capacity` bytes. -/
abbrev WF (s : BufferState) : Prop :=
  s.size ≤ s.capacity ∧ s.mem.length = s.capacity

/-- Modelled from the spec: the allocator behind the growth operations is
not in the visible source.  Spec sections 3 and 4.1 state that `data` may
change address after any capacity-changing operation; this model has every
reallocation return a fresh address that provably differs from the current
one.  The buffer member `_data` is declared `void* const` in the header,
but the documented behaviour of prepare/append/resize (the repeated warning
that the data() pointer may be invalidated) requires the block to be able
to move, so the model follows the documented behaviour. -/
def freshAddr (s : BufferState) : Nat := s.data + s.capacity + 1

/-- Modelled from the spec: the body of __INTERNAL__Buffer(strength)
(declared at IrisBuffer.hpp line 41) is not in the visible source.
Spec 4.1 Construct(strength): empty buffer, capacity 0, size 0,
data = nullptr. -/
def mkBuffer (t : BufferReferenceStrength) : BufferState :=
  { strength := t, capacity := 0, size := 0, data := 0, mem := [] }

/-- Modelled from the spec: the body of __INTERNAL__Buffer(strength,
capacity) (declared at IrisBuffer.hpp line 42) is not in the visible
source.  Spec 4.1 Construct(strength, capacity): allocates `capacity`
bytes immediately, size 0.  The model places the fresh block at address 1
when the capacity is positive, 0 (nullptr) otherwise. -/
def mkBufferCapacity (t : BufferReferenceStrength) (cap : Nat) : BufferState :=
  { strength := t, capacity := cap, size := 0,
    data := if cap = 0 then 0 else 1, mem := List.replicate cap 0 }

/-- Modelled from the spec: the body of __INTERNAL__Buffer(strength, data,
bytes) (declared at IrisBuffer.hpp line 43) is not in the visible source.
Spec 4.1 Construct(strength, externalData, bytes): wraps externally
supplied memory, capacity = size = bytes.  The external block is given by
its address and its byte contents. -/
def mkBufferWrap (t : BufferReferenceStrength) (addr : Nat)
    (bytes : List Nat) : BufferState :=
  { strength := t, capacity := bytes.length, size := bytes.length,
    data := addr, mem := bytes }

/-- Modelled from the spec: the body of change_strength (declared at
IrisBuffer.hpp line 79) is not in the visible source.  Spec 4.1:
reassigns the ownership mode, no-op if already at the target strength,
never copies or moves the underlying data. -/
def change_strength (t : BufferReferenceStrength) (s : BufferState) :
    Result × BufferState :=
  (IRIS_SUCCESS, { s with strength := t })

/-- Modelled from the spec: the body of end() (declared at IrisBuffer.hpp
line 100) is not in the visible source.  Spec 4.1: returns the address
immediately after the last written byte (data() + size()); returns a
null/invalid marker if size() equals capacity() with no room.  `end` is a
Lean keyword, hence the underscore. -/
def end_ (s : BufferState) : Option Nat :=
  if s.size < s.capacity then some (s.data + s.size) else none

/-- Modelled from the spec: the body of prepare (declared at IrisBuffer.hpp
line 118) is not in the visible source.  Spec 4.1: grows capacity by the
requested byte count without changing size; succeeds as a no-op only when
zero bytes are requested; illegal on a WEAK buffer (ownership violation,
reported as IRIS_FAILURE) since weak references may not reallocate. -/
def prepare (b : Nat) (s : BufferState) : Result × BufferState :=
  if b = 0 then (IRIS_SUCCESS, s)
  else if s.strength = REFERENCE_WEAK then (IRIS_FAILURE, s)
  else (IRIS_SUCCESS,
    { s with
      capacity := s.capacity + b
      data := freshAddr s
      mem := s.mem ++ List.replicate b 0 })

/-- Modelled from the spec: the body of append(size_t) (declared at
IrisBuffer.hpp line 136) is not in the visible source.  Spec 4.1: grows
size by the requested bytes, reallocating capacity first when needed, and
returns a pointer to the start of the newly available writable region (the
old end-of-size position); on a WEAK buffer growth beyond the existing
capacity is illegal and yields the null sentinel with the state unchanged.
The expanded space is not written; the model fills fresh block bytes
with 0. -/
def append (b : Nat) (s : BufferState) : Option Nat × BufferState :=
  if s.size + b ≤ s.capacity then
    (some (s.data + s.size), { s with size := s.size + b })
  else if s.strength = REFERENCE_WEAK then (none, s)
  else
    (some (freshAddr s + s.size),
     { s with
       capacity := s.size + b
       size := s.size + b
       data := freshAddr s
       mem := s.mem ++ List.replicate (s.size + b - s.capacity) 0 })

/-- Modelled from the spec: the body of append(void*, size_t) (declared at
IrisBuffer.hpp line 152) is not in the visible source.  Spec 4.1: same as
the pointer-returning append but copies the given bytes into the end of
the block itself; same WEAK-buffer capacity rule, reported as
IRIS_FAILURE with the state unchanged. -/
def append_copy (src : List Nat) (s : BufferState) : Result × BufferState :=
  if s.size + src.length ≤ s.capacity then
    (IRIS_SUCCESS,
     { s with
       size := s.size + src.length
       mem := s.mem.take s.size ++ src ++ s.mem.drop (s.size + src.length) })
  else if s.strength = REFERENCE_WEAK then (IRIS_FAILURE, s)
  else
    (IRIS_SUCCESS,
     { s with
       capacity := s.size + src.length
       size := s.size + src.length
       data := freshAddr s
       mem := s.mem.take s.size ++ src })

/-- Modelled from the spec: the body of set_size (declared at
IrisBuffer.hpp line 177) is not in the visible source.  Spec 4.1:
force-sets the logical size tracker without touching the allocated
capacity or the memory contents; fails when the requested size exceeds
the capacity. -/
def set_size (b : Nat) (s : BufferState) : Result × BufferState :=
  if b ≤ s.capacity then (IRIS_SUCCESS, { s with size := b })
  else (IRIS_FAILURE, s)

/-- Modelled from the spec: the body of resize (declared at IrisBuffer.hpp
line 209) is not in the visible source.  Spec 4.1: reallocates the backing
block to exactly the requested capacity, truncating size when shrinking;
illegal on WEAK buffers; may move the block.  When the requested capacity
equals the current one no reallocation happens and the address is
preserved, which realises the shrink_to_fit contract that no pointer is
invalidated when no shrink occurs. -/
def resize (b : Nat) (s : BufferState) : Result × BufferState :=
  if s.strength = REFERENCE_WEAK then (IRIS_FAILURE, s)
  else if b = s.capacity then (IRIS_SUCCESS, s)
  else (IRIS_SUCCESS,
    { s with
      capacity := b
      size := min s.size b
      data := freshAddr s
      mem := s.mem.take b ++ List.replicate (b - s.mem.length) 0 })

/-- Modelled from the spec: the body of shrink_to_fit (declared at
IrisBuffer.hpp line 219) is not in the visible source.  Spec 4.1 and the
header doc comment: equivalent to calling resize(size()). -/
def shrink_to_fit (s : BufferState) : Result × BufferState :=
  resize s.size s

/-- The available_bytes accessor (IrisBuffer.hpp line 193): the header doc
comment states it is equivalent to capacity() - size(); the body is not in
the visible source, so the definition is modelled from that sentence with
Nat subtraction. -/
def available_bytes (s : BufferState) : Nat := s.capacity - s.size

/-- Slide objective layer extent (IrisTypes.hpp lines 205 to 214): tile
grid dimensions in 256-pixel tiles, plus the scale and downsample factors.
The C++ float fields are modelled as exact rationals. -/
structure LayerExtent where
  xTiles : Nat := 1
  yTiles : Nat := 1
  scale : Rat := 1
  downsample : Rat := 1
deriving DecidableEq, Repr

/-- Whole slide image pixel extent (IrisTypes.hpp lines 221 to 228):
width and height in pixels plus the ordered list of layer extents. -/
structure Extent where
  width : Nat := 1
  height : Nat := 1
  layers : List LayerExtent := []
deriving DecidableEq, Repr

/-- Image channel byte order (IrisTypes.hpp lines 235 to 246,
enum Format). -/
inductive Format where
  | FORMAT_UNDEFINED
  | FORMAT_B8G8R8
  | FORMAT_R8G8B8
  | FORMAT_B8G8R8A8
  | FORMAT_R8G8B8A8
deriving DecidableEq, Repr

export Format (FORMAT_UNDEFINED FORMAT_B8G8R8 FORMAT_R8G8B8 FORMAT_B8G8R8A8
  FORMAT_R8G8B8A8)

/-- A pixel rectangle of one tile: row and column of the tile in its
layer grid, and the half-open pixel spans [x0, x1) and [y0, y1). -/
structure TileRect where
  row : Nat
  col : Nat
  x0 : Nat
  x1 : Nat
  y0 : Nat
  y1 : Nat
deriving DecidableEq, Repr

/-- Modelled from the spec: no tile-addressing code is in the visible
source, only the extent types.  Spec 4.2 derives a layer total pixel
extent from the image extent and the layer downsample factor; the exact
rounding is not fixed by the spec, so ceiling division is chosen (for a
downsample of 1 it is the identity).  For a positive downsample num/den
in lowest terms, the ceiling of full / (num/den) is
(full * den + num - 1) / num in Nat arithmetic; a nonpositive downsample
is meaningless and yields 0. -/
def layerPixelExtent (full : Nat) (downsample : Rat) : Nat :=
  if downsample ≤ 0 then 0
  else (full * downsample.den + (downsample.num.toNat - 1)) / downsample.num.toNat

/-- Modelled from the spec: Validate(extent, layer, tileIndex) has no body
in the visible source.  Spec 4.2: fails with an out-of-range error when
the layer index reaches the number of layers, or when the tile index
reaches xTiles * yTiles of the addressed layer. -/
def Validate (e : Extent) (layer tileIndex : Nat) : Result :=
  match e.layers[layer]? with
  | none => IRIS_FAILURE
  | some l => if tileIndex < l.xTiles * l.yTiles then IRIS_SUCCESS
              else IRIS_FAILURE

/-- Modelled from the spec: TileBounds(extent, layer, tileIndex) has no
body in the visible source.  Spec 4.2: row = tileIndex / xTiles,
col = tileIndex % xTiles; the pixel rectangle is
[col*256, col*256+w) x [row*256, row*256+h) with w and h equal to 256
except at the last column/row of the grid when the layer pixel extent is
not divisible by 256, where they are truncated to the remainder. -/
def TileBounds (e : Extent) (layer tileIndex : Nat) : Option TileRect :=
  match e.layers[layer]? with
  | none => none
  | some l =>
    let row := tileIndex / l.xTiles
    let col := tileIndex % l.xTiles
    let lw := layerPixelExtent e.width l.downsample
    let lh := layerPixelExtent e.height l.downsample
    let w := if col + 1 = l.xTiles ∧ lw % 256 ≠ 0 then lw % 256 else 256
    let h := if row + 1 = l.yTiles ∧ lh % 256 ≠ 0 then lh % 256 else 256
    some { row := row, col := col, x0 := col * 256, x1 := col * 256 + w,
           y0 := row * 256, y1 := row * 256 + h }

/-- Modelled from the spec: bytesPerPixel has no body in the visible
source.  Spec 4.2 and 6: 3 bytes for the no-alpha formats, 4 for the
alpha-including formats; no other format is supported, so the undefined
format yields none. -/
def bytesPerPixel : Format → Option Nat
  | FORMAT_UNDEFINED => none
  | FORMAT_B8G8R8 => some 3
  | FORMAT_R8G8B8 => some 3
  | FORMAT_B8G8R8A8 => some 4
  | FORMAT_R8G8B8A8 => some 4

/-- Modelled from the spec: ExpectedByteSize(format, width, height) has no
body in the visible source.  Spec 4.2: width * height * bytesPerPixel of
the format. -/
def ExpectedByteSize (f : Format) (width height : Nat) : Option Nat :=
  (bytesPerPixel f).map (fun b => width * height * b)

/-- Iterated copying append: runs append(void*, size_t) once per chunk,
stopping with none as soon as one call does not return IRIS_SUCCESS.
Used to state the spec sentence about sequences of append calls. -/
def appendSeq : BufferState → List (List Nat) → Option BufferState
  | s, [] => some s
  | s, c :: cs =>
    match append_copy c s with
    | (IRIS_SUCCESS, t) => appendSeq t cs
    | (IRIS_FAILURE, _) => none
    | (IRIS_UNINITIALIZED, _) => none

/-- The worked scenario extent of the spec: a 1000 by 1000 pixel image
with a single layer of 4 by 4 tiles at scale 1 and downsample 1. -/
def scenarioExtent : Extent :=
  { width := 1000
    height := 1000
    layers := [{ xTiles := 4, yTiles := 4, scale := 1, downsample := 1 }] }

/-- The tile rectangle the spec assigns to tile 15 of the scenario extent:
row 3, column 3, pixel spans [768, 1000) in both dimensions. -/
def scenarioRect : TileRect :=
  { row := 3, col := 3, x0 := 768, x1 := 1000, y0 := 768, y1 := 1000 }

theorem append_copy_ok (src : List Nat) (s t : BufferState) (hwf : WF s)
    (h : append_copy src s = (IRIS_SUCCESS, t)) :
    t.size = s.size + src.length ∧
    t.mem.take t.size = s.mem.take s.size ++ src ∧ WF t := by
  obtain ⟨hsc, hlen⟩ := hwf
  unfold append_copy at h
  split at h
  case isTrue hfit =>
    rw [Prod.mk.injEq] at h
    obtain ⟨-, h2⟩ := h
    subst h2
    refine ⟨rfl, ?_, ?_, ?_⟩
    · show ((s.mem.take s.size ++ src) ++
        s.mem.drop (s.size + src.length)).take (s.size + src.length) =
        s.mem.take s.size ++ src
      refine List.take_left' ?_
      simp only [List.length_append, List.length_take]
      omega
    · exact hfit
    · simp only [List.length_append, List.length_take, List.length_drop, hlen]
      omega
  · split at h
    · rw [Prod.mk.injEq] at h
      exact absurd h.1 (by simp)
    · rw [Prod.mk.injEq] at h
      obtain ⟨-, h2⟩ := h
      subst h2
      refine ⟨rfl, ?_, Nat.le_refl _, ?_⟩
      · refine List.take_of_length_le ?_
        simp only [List.length_append, List.length_take]
        omega
      · simp only [List.length_append, List.length_take, hlen]
        omega

theorem appendSeq_ok (chunks : List (List Nat)) :
    ∀ s t : BufferState, WF s → appendSeq s chunks = some t →
      t.size = s.size + (chunks.map List.length).sum ∧
      t.mem.take t.size = s.mem.take s.size ++ chunks.flatten ∧ WF t := by
  induction chunks with
  | nil =>
    intro s t hwf h
    simp only [appendSeq, Option.some.injEq] at h
    subst h
    simpa using hwf
  | cons c cs ih =>
    intro s t hwf h
    unfold appendSeq at h
    rcases hc : append_copy c s with ⟨r, u⟩
    rw [hc] at h
    cases r with
    | IRIS_SUCCESS =>
      obtain ⟨h1, h2, h3⟩ := append_copy_ok c s u hwf hc
      obtain ⟨g1, g2, g3⟩ := ih u t h3 h
      refine ⟨?_, ?_, g3⟩
      · rw [g1, h1]
        simp only [List.map_cons, List.sum_cons]
        omega
      · rw [g2, h2, List.flatten]
        simp [List.append_assoc]
    | IRIS_FAILURE => simp at h
    | IRIS_UNINITIALIZED => simp at h

theorem WF_mkBuffer (t : BufferReferenceStrength) : WF (mkBuffer t) :=
  ⟨Nat.le_refl 0, rfl⟩

theorem WF_mkBufferCapacity (t : BufferReferenceStrength) (c : Nat) :
    WF (mkBufferCapacity t c) :=
  ⟨Nat.zero_le c, by simp [mkBufferCapacity]⟩

theorem WF_mkBufferWrap (t : BufferReferenceStrength) (a : Nat)
    (bytes : List Nat) : WF (mkBufferWrap t a bytes) :=
  ⟨Nat.le_refl _, rfl⟩

theorem WF_change_strength (s : BufferState) (hwf : WF s)
    (t : BufferReferenceStrength) : WF (change_strength t s).2 :=
  ⟨hwf.1, hwf.2⟩

theorem WF_prepare (s : BufferState) (hwf : WF s) (b : Nat) :
    WF (prepare b s).2 := by
  obtain ⟨h1, h2⟩ := hwf
  unfold prepare
  split_ifs with hb hw
  · exact ⟨h1, h2⟩
  · exact ⟨h1, h2⟩
  · refine ⟨?_, ?_⟩
    · show s.size ≤ s.capacity + b
      omega
    · show (s.mem ++ List.replicate b 0).length = s.capacity + b
      simp [h2]

theorem WF_append (s : BufferState) (hwf : WF s) (b : Nat) :
    WF (append b s).2 := by
  obtain ⟨h1, h2⟩ := hwf
  unfold append
  split_ifs with hfit hw
  · exact ⟨hfit, h2⟩
  · exact ⟨h1, h2⟩
  · refine ⟨Nat.le_refl _, ?_⟩
    show (s.mem ++ List.replicate (s.size + b - s.capacity) 0).length
      = s.size + b
    simp [h2]
    omega

theorem WF_append_copy (s : BufferState) (hwf : WF s) (src : List Nat) :
    WF (append_copy src s).2 := by
  obtain ⟨h1, h2⟩ := hwf
  unfold append_copy
  split_ifs with hfit hw
  · refine ⟨hfit, ?_⟩
    show (s.mem.take s.size ++ src ++
      s.mem.drop (s.size + src.length)).length = s.capacity
    simp only [List.length_append, List.length_take, List.length_drop, h2]
    omega
  · exact ⟨h1, h2⟩
  · refine ⟨Nat.le_refl _, ?_⟩
    show (s.mem.take s.size ++ src).length = s.size + src.length
    simp only [List.length_append, List.length_take, h2]
    omega

theorem WF_set_size (s : BufferState) (hwf : WF s) (b : Nat) :
    WF (set_size b s).2 := by
  obtain ⟨h1, h2⟩ := hwf
  unfold set_size
  split_ifs with hb
  · exact ⟨hb, h2⟩
  · exact ⟨h1, h2⟩

theorem WF_resize (s : BufferState) (hwf : WF s) (b : Nat) :
    WF (resize b s).2 := by
  obtain ⟨h1, h2⟩ := hwf
  unfold resize
  split_ifs with hw hc
  · exact ⟨h1, h2⟩
  · exact ⟨h1, h2⟩
  · refine ⟨Nat.min_le_right _ _, ?_⟩
    show (s.mem.take b ++ List.replicate (b - s.mem.length) 0).length = b
    simp only [List.length_append, List.length_take, List.length_replicate]
    omega

theorem WF_shrink_to_fit (s : BufferState) (hwf : WF s) :
    WF (shrink_to_fit s).2 :=
  WF_resize s hwf s.size

/-- C1: for every buffer and every finite sequence of append calls that
all succeed, the final size equals the initial size plus the sum of the
appended byte counts, and every byte at an offset below the final size
holds the value it was given when written: the written prefix after the
sequence is exactly the written prefix before it followed by the appended
chunks in order (the block address is free to differ, and the statement is
indeed independent of the address). -/
theorem C1_append_sequence (chunks : List (List Nat)) (s t : BufferState)
    (hwf : WF s) (h : appendSeq s chunks = some t) :
    t.size = s.size + (chunks.map List.length).sum ∧
    t.mem.take t.size = s.mem.take s.size ++ chunks.flatten ∧ WF t :=
  appendSeq_ok chunks s t hwf h

/-- Witness for C1: starting from an empty strong buffer, appending the
chunks [7] and [8, 9] yields size 3 and written bytes 7, 8, 9. -/
theorem C1_append_sequence_witness :
    (⟨REFERENCE_STRONG, 3, 3, 3, [7, 8, 9]⟩ : BufferState).size
        = (mkBuffer REFERENCE_STRONG).size
          + ([[7], [8, 9]].map List.length).sum ∧
    (⟨REFERENCE_STRONG, 3, 3, 3, [7, 8, 9]⟩ : BufferState).mem.take 3
        = (mkBuffer REFERENCE_STRONG).mem.take
            (mkBuffer REFERENCE_STRONG).size ++ [[7], [8, 9]].flatten ∧
    WF (⟨REFERENCE_STRONG, 3, 3, 3, [7, 8, 9]⟩ : BufferState) :=
  C1_append_sequence [[7], [8, 9]] (mkBuffer REFERENCE_STRONG)
    ⟨REFERENCE_STRONG, 3, 3, 3, [7, 8, 9]⟩ (by decide) (by decide)

/-- C2: a WEAK buffer never changes capacity across append, prepare, or
resize; whenever the call would require growth beyond the current capacity
it fails with the ownership-violation result (IRIS_FAILURE, or the null
sentinel for the pointer-returning append) and leaves the buffer state
unchanged. -/
theorem C2_weak_capacity_frozen (s : BufferState)
    (hw : s.strength = REFERENCE_WEAK) :
    (∀ b, (prepare b s).2.capacity = s.capacity ∧
      (0 < b → prepare b s = (IRIS_FAILURE, s))) ∧
    (∀ b, (append b s).2.capacity = s.capacity ∧
      (s.capacity < s.size + b → append b s = (none, s))) ∧
    (∀ src : List Nat, (append_copy src s).2.capacity = s.capacity ∧
      (s.capacity < s.size + src.length →
        append_copy src s = (IRIS_FAILURE, s))) ∧
    (∀ b, (resize b s).2.capacity = s.capacity ∧
      (s.capacity < b → resize b s = (IRIS_FAILURE, s))) := by
  refine ⟨fun b => ?_, fun b => ?_, fun src => ?_, fun b => ?_⟩
  · unfold prepare
    split_ifs with hb
    · exact ⟨rfl, fun h => absurd h (by omega)⟩
    · exact ⟨rfl, fun _ => rfl⟩
  · unfold append
    split_ifs with hfit
    · exact ⟨rfl, fun h => absurd hfit (by omega)⟩
    · exact ⟨rfl, fun _ => rfl⟩
  · unfold append_copy
    split_ifs with hfit
    · exact ⟨rfl, fun h => absurd hfit (by omega)⟩
    · exact ⟨rfl, fun _ => rfl⟩
  · unfold resize
    rw [if_pos hw]
    exact ⟨rfl, fun _ => rfl⟩

/-- Witness for C2: a weak buffer wrapping three external bytes keeps its
capacity across a two-byte copying append, and that append fails leaving
the state unchanged. -/
theorem C2_weak_capacity_frozen_witness :
    (append_copy [9, 9] (mkBufferWrap REFERENCE_WEAK 5 [1, 2, 3])).2.capacity
        = (mkBufferWrap REFERENCE_WEAK 5 [1, 2, 3]).capacity ∧
    append_copy [9, 9] (mkBufferWrap REFERENCE_WEAK 5 [1, 2, 3])
        = (IRIS_FAILURE, mkBufferWrap REFERENCE_WEAK 5 [1, 2, 3]) :=
  ⟨((C2_weak_capacity_frozen (mkBufferWrap REFERENCE_WEAK 5 [1, 2, 3])
      (by decide)).2.2.1 [9, 9]).1,
   ((C2_weak_capacity_frozen (mkBufferWrap REFERENCE_WEAK 5 [1, 2, 3])
      (by decide)).2.2.1 [9, 9]).2 (by decide)⟩

/-- C3 fails as stated: not every operation leaves data() at the address
established at construction.  A strong buffer constructed empty has the
null address; prepare(1) must allocate, and per the documented contract of
prepare (the data() pointer may be invalidated) the model returns a block
at a different address. -/
theorem C3_counterexample :
    (prepare 1 (mkBuffer REFERENCE_STRONG)).2.data
      ≠ (mkBuffer REFERENCE_STRONG).data := by decide

/-- C3 amended: the backing address is stable across every operation that
leaves the capacity unchanged.  change_strength and set_size never move
the block, and prepare, append, append_copy, resize and shrink_to_fit
leave data() unchanged whenever capacity() is unchanged (in particular
whenever they fail or are no-ops); only a capacity-changing reallocation
may move the block. -/
theorem C3_address_stable (s : BufferState) :
    (∀ t, (change_strength t s).2.data = s.data) ∧
    (∀ b, (set_size b s).2.data = s.data) ∧
    (∀ b, (prepare b s).2.capacity = s.capacity →
      (prepare b s).2.data = s.data) ∧
    (∀ b, (append b s).2.capacity = s.capacity →
      (append b s).2.data = s.data) ∧
    (∀ src : List Nat, (append_copy src s).2.capacity = s.capacity →
      (append_copy src s).2.data = s.data) ∧
    (∀ b, (resize b s).2.capacity = s.capacity →
      (resize b s).2.data = s.data) ∧
    ((shrink_to_fit s).2.capacity = s.capacity →
      (shrink_to_fit s).2.data = s.data) := by
  have hres : ∀ b, (resize b s).2.capacity = s.capacity →
      (resize b s).2.data = s.data := by
    intro b
    unfold resize
    split_ifs with hw hc
    · intro _; rfl
    · intro _; rfl
    · intro hcap
      exact absurd hcap hc
  refine ⟨fun t => rfl, ?_, ?_, ?_, ?_, hres, hres s.size⟩
  · intro b
    unfold set_size
    split_ifs with hb
    · rfl
    · rfl
  · intro b
    unfold prepare
    split_ifs with hb hw
    · intro _; rfl
    · intro _; rfl
    · intro hcap
      exfalso
      have h : s.capacity + b = s.capacity := hcap
      omega
  · intro b
    unfold append
    split_ifs with hfit hw
    · intro _; rfl
    · intro _; rfl
    · intro hcap
      exfalso
      have h : s.size + b = s.capacity := hcap
      omega
  · intro src
    unfold append_copy
    split_ifs with hfit hw
    · intro _; rfl
    · intro _; rfl
    · intro hcap
      exfalso
      have h : s.size + src.length = s.capacity := hcap
      omega

/-- Witness for C3 amended: on a strong buffer of capacity 3, set_size and
a zero-byte prepare leave the data address unchanged. -/
theorem C3_address_stable_witness :
    (set_size 2 (mkBufferCapacity REFERENCE_STRONG 3)).2.data
        = (mkBufferCapacity REFERENCE_STRONG 3).data ∧
    (prepare 0 (mkBufferCapacity REFERENCE_STRONG 3)).2.data
        = (mkBufferCapacity REFERENCE_STRONG 3).data :=
  ⟨(C3_address_stable (mkBufferCapacity REFERENCE_STRONG 3)).2.1 2,
   (C3_address_stable (mkBufferCapacity REFERENCE_STRONG 3)).2.2.1 0
     (by decide)⟩

/-- C4: shrink_to_fit equals resize(size()); after a successful
shrink_to_fit the capacity equals the size; and when size already equals
capacity the data address is unchanged by the call. -/
theorem C4_shrink_to_fit (s : BufferState) :
    shrink_to_fit s = resize s.size s ∧
    ((shrink_to_fit s).1 = IRIS_SUCCESS →
      (shrink_to_fit s).2.capacity = (shrink_to_fit s).2.size) ∧
    (s.size = s.capacity → (shrink_to_fit s).2.data = s.data) := by
  refine ⟨rfl, ?_, ?_⟩
  · unfold shrink_to_fit resize
    split_ifs with hw hc
    · intro h
      exact absurd h (by decide)
    · intro _
      exact hc.symm
    · intro _
      exact (Nat.min_self s.size).symm
  · unfold shrink_to_fit resize
    split_ifs with hw hc
    · intro _; rfl
    · intro _; rfl
    · intro h
      exact absurd h hc

/-- Witness for C4: shrinking a strong buffer of capacity 2 and size 0
succeeds and makes capacity equal size; on a strong buffer wrapping one
byte (size = capacity = 1) the data address is untouched. -/
theorem C4_shrink_to_fit_witness :
    ((shrink_to_fit (mkBufferCapacity REFERENCE_STRONG 2)).1 = IRIS_SUCCESS ∧
      (shrink_to_fit (mkBufferCapacity REFERENCE_STRONG 2)).2.capacity
        = (shrink_to_fit (mkBufferCapacity REFERENCE_STRONG 2)).2.size) ∧
    (shrink_to_fit (mkBufferWrap REFERENCE_STRONG 9 [1])).2.data
        = (mkBufferWrap REFERENCE_STRONG 9 [1]).data :=
  ⟨⟨by decide, (C4_shrink_to_fit (mkBufferCapacity REFERENCE_STRONG 2)).2.1
      (by decide)⟩,
   (C4_shrink_to_fit (mkBufferWrap REFERENCE_STRONG 9 [1])).2.2 (by decide)⟩

/-- C5: size never exceeds capacity and available_bytes is the exact
difference capacity - size; the invariant holds for every constructor and
is preserved by every mutating operation, and on every well-formed state
the accessor equation holds without truncation. -/
theorem C5_available_bytes (s : BufferState) (hwf : WF s) :
    (∀ t, WF (mkBuffer t)) ∧
    (∀ t c, WF (mkBufferCapacity t c)) ∧
    (∀ t a bytes, WF (mkBufferWrap t a bytes)) ∧
    (∀ t, WF (change_strength t s).2) ∧
    (∀ b, WF (prepare b s).2) ∧
    (∀ b, WF (append b s).2) ∧
    (∀ src, WF (append_copy src s).2) ∧
    (∀ b, WF (set_size b s).2) ∧
    (∀ b, WF (resize b s).2) ∧
    WF (shrink_to_fit s).2 ∧
    s.size ≤ s.capacity ∧
    available_bytes s = s.capacity - s.size ∧
    available_bytes s + s.size = s.capacity := by
  refine ⟨WF_mkBuffer, WF_mkBufferCapacity, WF_mkBufferWrap,
    WF_change_strength s hwf, WF_prepare s hwf, WF_append s hwf,
    WF_append_copy s hwf, WF_set_size s hwf, WF_resize s hwf,
    WF_shrink_to_fit s hwf, hwf.1, rfl, ?_⟩
  have h1 := hwf.1
  unfold available_bytes
  omega

/-- Witness for C5: the accessor equation and the preservation facts at a
strong buffer wrapping two bytes. -/
theorem C5_available_bytes_witness :
    available_bytes (mkBufferWrap REFERENCE_STRONG 4 [1, 2])
        + (mkBufferWrap REFERENCE_STRONG 4 [1, 2]).size
        = (mkBufferWrap REFERENCE_STRONG 4 [1, 2]).capacity ∧
    WF (prepare 5 (mkBufferWrap REFERENCE_STRONG 4 [1, 2])).2 := by
  have h := C5_available_bytes (mkBufferWrap REFERENCE_STRONG 4 [1, 2])
    (by decide)
  exact ⟨h.2.2.2.2.2.2.2.2.2.2.2.2, h.2.2.2.2.1 5⟩

/-- C6: when size is below capacity, end() is the address one past the
last written byte, data() + size(); when size equals capacity, end() is
the null marker rather than a pointer into the block. -/
theorem C6_end (s : BufferState) :
    (s.size < s.capacity → end_ s = some (s.data + s.size)) ∧
    (s.size = s.capacity → end_ s = none) := by
  unfold end_
  constructor
  · intro h
    rw [if_pos h]
  · intro h
    rw [if_neg (by omega)]

/-- Witness for C6: on a fresh strong buffer of capacity 2 (size 0) end()
is the data address; on a full wrapped buffer (size = capacity = 1) end()
is the null marker. -/
theorem C6_end_witness :
    end_ (mkBufferCapacity REFERENCE_STRONG 2)
        = some ((mkBufferCapacity REFERENCE_STRONG 2).data
          + (mkBufferCapacity REFERENCE_STRONG 2).size) ∧
    end_ (mkBufferWrap REFERENCE_STRONG 9 [1]) = none :=
  ⟨(C6_end (mkBufferCapacity REFERENCE_STRONG 2)).1 (by decide),
   (C6_end (mkBufferWrap REFERENCE_STRONG 9 [1])).2 (by decide)⟩

/-- C7: for every valid (layer, tileIndex) identity, TileBounds returns
row = tileIndex / xTiles and col = tileIndex % xTiles and the pixel
rectangle [col*256, col*256+w) x [row*256, row*256+h), with w and h equal
to 256 except truncated to the positive remainder of the layer pixel
extent at the trailing edge of the grid; in particular, in the
1000 by 1000 scenario with one 4 by 4 layer, tile 15 has row 3, col 3 and
rectangle [768, 1000) x [768, 1000). -/
theorem C7_tile_bounds (e : Extent) (layer idx : Nat)
    (hv : Validate e layer idx = IRIS_SUCCESS) :
    (∃ l, e.layers[layer]? = some l ∧
      TileBounds e layer idx = some
        { row := idx / l.xTiles
          col := idx % l.xTiles
          x0 := (idx % l.xTiles) * 256
          x1 := (idx % l.xTiles) * 256
            + (if idx % l.xTiles + 1 = l.xTiles ∧
                  layerPixelExtent e.width l.downsample % 256 ≠ 0
               then layerPixelExtent e.width l.downsample % 256 else 256)
          y0 := (idx / l.xTiles) * 256
          y1 := (idx / l.xTiles) * 256
            + (if idx / l.xTiles + 1 = l.yTiles ∧
                  layerPixelExtent e.height l.downsample % 256 ≠ 0
               then layerPixelExtent e.height l.downsample % 256 else 256) }) ∧
    TileBounds scenarioExtent 0 15 = some scenarioRect := by
  refine ⟨?_, by decide⟩
  cases hget : e.layers[layer]? with
  | none => simp [Validate, hget] at hv
  | some l =>
    refine ⟨l, rfl, ?_⟩
    unfold TileBounds
    rw [hget]

/-- Witness for C7: the scenario identity (layer 0, tile 15) is valid and
yields the rectangle [768, 1000) x [768, 1000) at row 3, column 3. -/
theorem C7_tile_bounds_witness :
    Validate scenarioExtent 0 15 = IRIS_SUCCESS ∧
    TileBounds scenarioExtent 0 15 = some scenarioRect :=
  ⟨by decide, (C7_tile_bounds scenarioExtent 0 15 (by decide)).2⟩

/-- C8: Validate fails exactly at and beyond the declared bounds: it fails
at layer index equal to the number of layers, fails at tile index equal to
xTiles * yTiles of the addressed layer, and succeeds at tile index
xTiles * yTiles - 1 when the layer index is in range. -/
theorem C8_validate (e : Extent) (layer t : Nat)
    (h : layer < e.layers.length)
    (hx : 0 < e.layers[layer].xTiles) (hy : 0 < e.layers[layer].yTiles) :
    Validate e e.layers.length t = IRIS_FAILURE ∧
    Validate e layer (e.layers[layer].xTiles * e.layers[layer].yTiles)
      = IRIS_FAILURE ∧
    Validate e layer (e.layers[layer].xTiles * e.layers[layer].yTiles - 1)
      = IRIS_SUCCESS := by
  have hsome : e.layers[layer]? = some e.layers[layer] :=
    List.getElem?_eq_getElem h
  have hnone : e.layers[e.layers.length]? = none :=
    List.getElem?_eq_none (Nat.le_refl _)
  have hpos : 0 < e.layers[layer].xTiles * e.layers[layer].yTiles :=
    Nat.mul_pos hx hy
  refine ⟨?_, ?_, ?_⟩
  · unfold Validate
    rw [hnone]
  · unfold Validate
    rw [hsome]
    simp only []
    rw [if_neg (by omega)]
  · unfold Validate
    rw [hsome]
    simp only []
    rw [if_pos (by omega)]

/-- Witness for C8: on the scenario extent (one layer of 4 by 4 tiles),
layer 1 is rejected, tile 16 of layer 0 is rejected, and tile 15 of
layer 0 is accepted. -/
theorem C8_validate_witness :
    Validate scenarioExtent 1 0 = IRIS_FAILURE ∧
    Validate scenarioExtent 0 16 = IRIS_FAILURE ∧
    Validate scenarioExtent 0 15 = IRIS_SUCCESS := by
  have h := C8_validate scenarioExtent 0 0 (by decide) (by decide) (by decide)
  exact ⟨h.1, h.2.1, h.2.2⟩

/-- C9: ExpectedByteSize is width times height times bytes per pixel,
with 3 bytes for the two no-alpha formats and 4 for the two alpha
formats, and no byte size for the undefined format, which this core does
not support. -/
theorem C9_expected_byte_size (w h : Nat) :
    ExpectedByteSize FORMAT_B8G8R8 w h = some (w * h * 3) ∧
    ExpectedByteSize FORMAT_R8G8B8 w h = some (w * h * 3) ∧
    ExpectedByteSize FORMAT_B8G8R8A8 w h = some (w * h * 4) ∧
    ExpectedByteSize FORMAT_R8G8B8A8 w h = some (w * h * 4) ∧
    ExpectedByteSize FORMAT_UNDEFINED w h = none :=
  ⟨rfl, rfl, rfl, rfl, rfl⟩

end Iris
